import Mathlib

/-!
Shallow embedding of the kuiskaus push-to-talk speech capture pipeline
(`src/kuiskaus/`): the clipboard-based and typing-based text injection
strategies (`text_inserter.py`), the microphone capture buffer
(`audio_recorder.py`), the modifier-combo hotkey detector
(`hotkey_listener_cgevent.py`), the transcription adapter's audio
preprocessing and derived metrics (`whisper_transcriber.py`), and the two
orchestrators (`app.py`, `menubar.py`).

Machine samples (16-bit PCM) are embedded as `Int`, normalized samples and
wall-clock times as `ℚ`.  Stateful Python objects become explicit state
records; methods become functions on those records.  Exit-path behaviour of
`try`/`finally` is embedded by threading an explicit `raises` flag for the
fallible step and returning the exception outcome alongside the state.
-/

namespace Kuiskaus

/-! ## Text injector (`text_inserter.py`) -/

namespace TextInserter

/-- Which insertion strategy `TextInserter.insert_text` ends up invoking. -/
inductive Strategy
  | paste   -- `insert_text_paste`: clipboard round-trip plus synthesized Cmd+V
  | direct  -- `insert_text_typing`: per-character key events
  | noop    -- early return on empty text
  deriving DecidableEq, Repr

/-- Embeds `TextInserter.insert_text_paste` acting on the clipboard.
`clipboard` is the pasteboard's string content before the call (`none` when
`stringForType_` returns `None`); `pasteRaises` says whether the synthesized
paste sequence inside the `try` block raises.  The body saves
`old_content`, overwrites the clipboard with `text`, runs the paste, and in
the `finally` block restores `old_content` only when it is not `None`.
Returns the clipboard content after the call together with the call's
outcome (the exception propagates after `finally` runs). -/
def insert_text_paste (clipboard : Option String) (text : String)
    (pasteRaises : Bool) : Option String × Except Unit Unit :=
  let old_content := clipboard
  -- try block: clearContents; setString text; _simulate_paste (may raise)
  let clipAfterTry : Option String := some text
  let outcome : Except Unit Unit := if pasteRaises then .error () else .ok ()
  -- finally block: restore only when old_content is not None
  let clipFinal : Option String :=
    match old_content with
    | some s => some s
    | none => clipAfterTry
  (clipFinal, outcome)

/-- Embeds `TextInserter.insert_text`: early return on empty text, paste for
`use_paste and len(text) > 10`, per-character typing otherwise.  Returns the
strategy the call selects. -/
def insert_text (text : String) (use_paste : Bool) : Strategy :=
  if text = "" then .noop
  else if use_paste && text.length > 10 then .paste
  else .direct

end TextInserter

/-! ## Capture buffer (`audio_recorder.py`) -/

/-- State of an `AudioRecorder`: the `recording` flag, the queued raw frames
(each frame a chunk of 16-bit integer samples), and the number of device
handles currently opened by a launched capture loop (`_recording_worker`
opens the stream when it starts and closes it when the loop exits). -/
structure AudioRecorder where
  recording : Bool
  audio_queue : List (List Int)
  openDevices : Nat
  deriving DecidableEq, Repr

namespace AudioRecorder

/-- State after `AudioRecorder.__init__`: not recording, empty queue, no
device open. -/
def init : AudioRecorder := { recording := false, audio_queue := [], openDevices := 0 }

/-- Embeds `AudioRecorder.start_recording`: guarded by `if not self.recording`;
when idle it sets the flag, replaces the queue with a fresh empty one and
launches `_recording_worker`, which opens one device handle; when already
recording nothing happens. -/
def start_recording (r : AudioRecorder) : AudioRecorder :=
  if ¬ r.recording then
    { recording := true, audio_queue := [], openDevices := r.openDevices + 1 }
  else r

/-- Embeds `AudioRecorder.stop_recording`: when recording, clears the flag
(the worker loop then exits, closing its device handle), drains all queued
frames, and when any frame was captured joins them and converts the 16-bit
samples to normalized floats by dividing by 32768; otherwise returns an
empty buffer.  Returns the sample buffer and the recorder state after. -/
def stop_recording (r : AudioRecorder) : List ℚ × AudioRecorder :=
  if r.recording then
    let chunks := r.audio_queue
    let r' : AudioRecorder :=
      { recording := false, audio_queue := [], openDevices := r.openDevices - 1 }
    (if chunks = [] then [] else chunks.flatten.map (fun i => (i : ℚ) / 32768), r')
  else ([], r)

end AudioRecorder

/-! ## Combo detector (`hotkey_listener_cgevent.py`) -/

namespace HotkeyListenerCGEvent

/-- `kCGEventFlagMaskControl = 1 << 18`. -/
def kCGEventFlagMaskControl : Nat := 2 ^ 18

/-- `kCGEventFlagMaskAlternate = 1 << 19` (Option key). -/
def kCGEventFlagMaskAlternate : Nat := 2 ^ 19

/-- `kCGEventFlagMaskCommand = 1 << 20`. -/
def kCGEventFlagMaskCommand : Nat := 2 ^ 20

/-- Embeds `HotkeyListenerCGEvent._check_modifiers`: Control and Option must
be in the flag mask and Command must not be. -/
def _check_modifiers (flags : Nat) : Bool :=
  let has_control : Bool := flags &&& kCGEventFlagMaskControl != 0
  let has_option : Bool := flags &&& kCGEventFlagMaskAlternate != 0
  let has_command : Bool := flags &&& kCGEventFlagMaskCommand != 0
  has_control && has_option && !has_command

/-- Listener state: the stored `is_pressed` flag. -/
structure Listener where
  is_pressed : Bool
  deriving DecidableEq, Repr

/-- What a single `_event_tap_callback` invocation fires. -/
inductive Fired
  | pressFired    -- spawned a thread running `on_press`
  | releaseFired  -- spawned a thread running `on_release`
  | nothingFired
  deriving DecidableEq, Repr

/-- Embeds `HotkeyListenerCGEvent._event_tap_callback` for one notification:
on a `kCGEventFlagsChanged` event it computes `modifiers_pressed` from the
flags, fires `on_press` on a false-to-true transition of the stored flag,
fires `on_release` on a true-to-false transition, and otherwise fires
nothing.  Returns the updated listener state and what was fired. -/
def _event_tap_callback (l : Listener) (isFlagsChanged : Bool) (flags : Nat) :
    Listener × Fired :=
  if isFlagsChanged then
    let modifiers_pressed := _check_modifiers flags
    if modifiers_pressed && !l.is_pressed then
      ({ is_pressed := true }, .pressFired)
    else if !modifiers_pressed && l.is_pressed then
      ({ is_pressed := false }, .releaseFired)
    else (l, .nothingFired)
  else (l, .nothingFired)

/-- Specification-side combo condition: all required modifiers
(Control = bit 18, Option = bit 19) pressed and the forbidden modifier
(Command = bit 20) not pressed. -/
def comboNow (flags : Nat) : Prop :=
  flags.testBit 18 = true ∧ flags.testBit 19 = true ∧ flags.testBit 20 = false

instance (flags : Nat) : Decidable (comboNow flags) := by
  unfold comboNow; infer_instance

end HotkeyListenerCGEvent

/-! ## Inference adapter (`whisper_transcriber.py`) -/

namespace WhisperTranscriber

/-- `min_length = int(0.1 * 16000)`: the 100 ms minimum at 16 kHz. -/
def min_length : Nat := 1600

/-- Embeds the short-audio padding step of `WhisperTranscriber.transcribe`:
audio shorter than `min_length` samples gets `min_length - len(audio)`
trailing zeros appended (`np.pad` with constant mode). -/
def padAudio (audio : List ℚ) : List ℚ :=
  if audio.length < min_length then
    audio ++ List.replicate (min_length - audio.length) 0
  else audio

/-- The engine input and the derived metrics `transcribe` attaches to the
result dictionary. -/
structure TranscriptionMetrics where
  engine_input : List ℚ    -- the audio array handed to the inference engine
  transcribe_time : ℚ      -- wall-clock elapsed inference time
  audio_duration : ℚ       -- `len(audio) / 16000.0`
  rtf : ℚ                  -- `transcribe_time / audio_duration`
  deriving DecidableEq, Repr

/-- Embeds `WhisperTranscriber.transcribe`'s audio handling and metric
computation: empty audio returns early without invoking the engine
(`none`); otherwise the audio is padded when shorter than `min_length`, the
engine is invoked on the (possibly padded) array taking `engineLatency`
wall-clock time, and the derived metrics are computed from that array's
length. -/
def transcribe (audio : List ℚ) (engineLatency : ℚ) : Option TranscriptionMetrics :=
  if audio.length = 0 then none
  else
    let padded := padAudio audio
    some { engine_input := padded
           transcribe_time := engineLatency
           audio_duration := (padded.length : ℚ) / 16000
           rtf := engineLatency / ((padded.length : ℚ) / 16000) }

/-- A transcriber handle as `WhisperTranscriber.__init__` returns it: the
constructor records the model name, starts `_load_model` on a background
thread, and returns without joining it, so the handle's load is not yet
complete; `loaded` records whether that background load has finished and
`model` is the engine instance `self.model` references (`none` when
`self.model is None`), identified here by a name. -/
structure Handle where
  model_name : String
  loaded : Bool
  model : Option String
  deriving DecidableEq, Repr

/-- Embeds `WhisperTranscriber.__init__` as observed at the moment the
constructor returns: the background load thread has been started but not
joined, and `self.model` is still `None`. -/
def mkHandle (name : String) : Handle :=
  { model_name := name, loaded := false, model := none }

/-- Embeds `WhisperTranscriber.cleanup`: rebinds `self.model = None` on the
handle.  This drops the handle's reference to the engine instance; it does
not alter the instance itself, nor any call frame that already bound it. -/
def cleanup (t : Handle) : Handle := { t with model := none }

/-- A `transcribe` call that has entered the `with self.model_lock:` section
on a handle and is in flight: issuing `self.model.transcribe(...)` binds the
engine instance `self.model` into the call frame (`acquired`), and the
remainder of the call computes from that binding alone — a later rebinding
of the handle's `model` attribute cannot reach it. -/
structure InFlightTranscription where
  acquired : String
  audio : List ℚ
  deriving DecidableEq, Repr

/-- Embeds entry into `transcribe`'s locked section on a handle: the call
binds the handle's current engine instance into its frame; no call can be
in flight on a handle whose `self.model` is `None`. -/
def enterTranscribe (h : Handle) (audio : List ℚ) : Option InFlightTranscription :=
  h.model.map fun m => { acquired := m, audio := audio }

/-- The engine instance an in-flight call completes with: the one bound in
its call frame. -/
def InFlightTranscription.completesWith (c : InFlightTranscription) : String :=
  c.acquired

end WhisperTranscriber

/-! ## Menu-bar orchestrator (`menubar.py`) -/

namespace MenuBar

/-- The ordered actions `KuiskausMenuBarApp._reload_model` performs on the
transcriber slot. -/
inductive SwapEvent
  | constructNew   -- `WhisperTranscriber(model_name=...)` returns; its load runs in background
  | installNew     -- `self.transcriber = <new handle>`
  | releaseOld     -- `old_transcriber.cleanup()`
  deriving DecidableEq, Repr

/-- Embeds `KuiskausMenuBarApp._reload_model` (the success path): construct
a new handle (whose load continues on a background thread), install it as
the current transcriber, then clean up the old handle.  Returns the
installed handle, the cleaned-up old handle, and the action trace in
program order. -/
def _reload_model (old : WhisperTranscriber.Handle) (model_name : String) :
    WhisperTranscriber.Handle × WhisperTranscriber.Handle × List SwapEvent :=
  let newT := WhisperTranscriber.mkHandle model_name
  (newT, WhisperTranscriber.cleanup old,
    [SwapEvent.constructNew, SwapEvent.installNew, SwapEvent.releaseOld])

/-- The transcriber slot (`self.transcriber`) together with a transcription
already in flight inside the current handle's locked section. -/
structure TranscriberSystem where
  current : WhisperTranscriber.Handle
  inflight : WhisperTranscriber.InFlightTranscription
  deriving DecidableEq, Repr

/-- Embeds `_reload_model` running while a transcription is in flight on the
old handle: the swap replaces the slot and cleans up the old handle, which
rebinds that handle's `model` attribute only — the in-flight call's frame is
not among the locations `_reload_model` writes, so it is carried over as is.
Returns the system after the swap and the swap's action trace. -/
def swapWithInflight (s : TranscriberSystem) (model_name : String) :
    TranscriberSystem × List SwapEvent :=
  let r := _reload_model s.current model_name
  ({ current := r.1, inflight := s.inflight }, r.2.2)

/-- Menu-bar app state: the enabled toggle, the recording flag, and the
capture buffer. -/
structure App where
  enabled : Bool
  is_recording : Bool
  recorder : AudioRecorder
  deriving DecidableEq, Repr

/-- Embeds `KuiskausMenuBarApp.toggle_enabled`: flips the enabled flag. -/
def toggle_enabled (m : App) : App := { m with enabled := ¬ m.enabled }

/-- Embeds `KuiskausMenuBarApp.on_hotkey_press`: returns immediately when
disabled; otherwise, when not recording, sets the flag and starts the
capture buffer. -/
def on_hotkey_press (m : App) : App :=
  if ¬ m.enabled then m
  else if ¬ m.is_recording then
    { m with is_recording := true, recorder := m.recorder.start_recording }
  else m

/-- Embeds `KuiskausMenuBarApp.on_hotkey_release`: returns immediately when
disabled; otherwise, when recording, clears the flag, calls
`stop_recording`, and spawns the transcribe-and-insert thread only when the
returned buffer is non-empty.  Returns the app state after, the audio
handed to the spawned finishing task (`none` when no task is spawned), and
whether `stop_recording` was invoked. -/
def on_hotkey_release (m : App) : App × Option (List ℚ) × Bool :=
  if ¬ m.enabled then (m, none, false)
  else if m.is_recording then
    let res := m.recorder.stop_recording
    let m' : App := { m with is_recording := false, recorder := res.2 }
    (m', if res.1.length > 0 then some res.1 else none, true)
  else (m, none, false)

end MenuBar

/-! ## CLI orchestrator (`app.py`) -/

namespace App

/-- `KuiskausApp` state relevant to the capture cycle. -/
structure State where
  is_recording : Bool
  recorder : AudioRecorder
  deriving DecidableEq, Repr

/-- State after `KuiskausApp.__init__`. -/
def init : State := { is_recording := false, recorder := AudioRecorder.init }

/-- Embeds `KuiskausApp.on_hotkey_press`: when not recording, sets the flag
and starts the capture buffer. -/
def on_hotkey_press (a : State) : State :=
  if ¬ a.is_recording then
    { is_recording := true, recorder := a.recorder.start_recording }
  else a

/-- Embeds `KuiskausApp.on_hotkey_release`: when recording, clears the flag,
calls `stop_recording`, and spawns `_transcribe_and_insert` only when the
returned buffer is non-empty.  Returns the state after and the audio handed
to the spawned transcription thread (`none` when no thread is spawned). -/
def on_hotkey_release (a : State) : State × Option (List ℚ) :=
  if a.is_recording then
    let res := a.recorder.stop_recording
    let a' : State := { is_recording := false, recorder := res.2 }
    (a', if res.1.length > 0 then some res.1 else none)
  else (a, none)

/-- A hotkey edge event delivered to the orchestrator. -/
inductive HotEvent
  | press
  | release
  deriving DecidableEq, Repr

/-- One orchestrator step on a hotkey edge. -/
def step (a : State) : HotEvent → State
  | .press => on_hotkey_press a
  | .release => (on_hotkey_release a).1

/-- Run a sequence of hotkey edges from a state. -/
def run : List HotEvent → State → State
  | [], a => a
  | e :: es, a => run es (step a e)

/-- The capture-session invariant: the orchestrator's flag mirrors the
recorder's flag, and exactly one device handle is open while recording,
none while idle. -/
def Inv (a : State) : Prop :=
  a.is_recording = a.recorder.recording ∧
  a.recorder.openDevices = (if a.recorder.recording then 1 else 0)

end App

end Kuiskaus

namespace Kuiskaus

/-! ## Invariant lemmas for the capture cycle -/

theorem App.inv_init : App.Inv App.init := by
  constructor <;> rfl

theorem App.inv_step (a : App.State) (e : App.HotEvent) (h : App.Inv a) :
    App.Inv (App.step a e) := by
  obtain ⟨h1, h2⟩ := h
  cases e with
  | press =>
      by_cases hr : a.is_recording
      · have hrec : a.recorder.recording = true := by rw [← h1]; exact hr
        simp [App.step, App.on_hotkey_press, hr, App.Inv, hrec, h2]
      · have hrec : a.recorder.recording = false := by
          rw [← h1]; simpa using hr
        have hdev : a.recorder.openDevices = 0 := by rw [h2, hrec]; rfl
        simp [App.step, App.on_hotkey_press, hr, App.Inv,
          AudioRecorder.start_recording, hrec, hdev]
  | release =>
      by_cases hr : a.is_recording
      · have hrec : a.recorder.recording = true := by rw [← h1]; exact hr
        rw [hrec] at h2
        simp [App.step, App.on_hotkey_release, hr, App.Inv,
          AudioRecorder.stop_recording, hrec, h2]
      · have hrec : a.recorder.recording = false := by
          rw [← h1]; simpa using hr
        simp [App.step, App.on_hotkey_release, hr, App.Inv, hrec, h2]

theorem App.inv_run (evs : List App.HotEvent) (a : App.State) (h : App.Inv a) :
    App.Inv (App.run evs a) := by
  induction evs generalizing a with
  | nil => exact h
  | cons e es ih => exact ih _ (App.inv_step a e h)

/-! ## Bit-mask bridge for the combo detector -/

theorem and_two_pow_bne_zero (n i : Nat) : (n &&& 2 ^ i != 0) = n.testBit i := by
  rcases h : n.testBit i <;> simp [Nat.and_two_pow, h, Nat.pow_eq_zero]

theorem check_modifiers_eq_comboNow (flags : Nat) :
    HotkeyListenerCGEvent._check_modifiers flags =
      decide (HotkeyListenerCGEvent.comboNow flags) := by
  simp only [HotkeyListenerCGEvent._check_modifiers,
    HotkeyListenerCGEvent.kCGEventFlagMaskControl,
    HotkeyListenerCGEvent.kCGEventFlagMaskAlternate,
    HotkeyListenerCGEvent.kCGEventFlagMaskCommand]
  rw [and_two_pow_bne_zero flags 18, and_two_pow_bne_zero flags 19,
    and_two_pow_bne_zero flags 20]
  rcases h18 : flags.testBit 18 <;> rcases h19 : flags.testBit 19 <;>
    rcases h20 : flags.testBit 20 <;>
    simp [HotkeyListenerCGEvent.comboNow, h18, h19, h20]

/-! ## Claim theorems -/

/-- C1 counterexample: `insert_text_paste` does not leave the clipboard
equal to its pre-call value on every call — when the clipboard held no
string content before the call (snapshot `none`), the `finally` block skips
restoration and the clipboard ends up holding the injected text. -/
theorem C1_restore_cex :
    (TextInserter.insert_text_paste none "hi" false).1 ≠ none := by
  simp [TextInserter.insert_text_paste]

/-- C1 (amended): for every call to `insert_text_paste(text)` whose
clipboard snapshot holds string content (`some s`), that prior content is
restored on every exit path — both when the synthesized paste sequence
completes and when it raises (the exception propagating after the `finally`
block) — so after the call the clipboard equals its pre-call value. -/
theorem C1_restore_amended (s text : String) (pasteRaises : Bool) :
    (TextInserter.insert_text_paste (some s) text pasteRaises).1 = some s ∧
    (TextInserter.insert_text_paste (some s) text pasteRaises).2 =
      (if pasteRaises then .error () else .ok ()) := by
  simp [TextInserter.insert_text_paste]

/-- C2: `start_recording` on an already-active recorder is a no-op — the
recording flag, the queued frames and the open-device count are all
unchanged — and for any interleaving of press/release calls from the
initial state at most one capture session (open device handle) exists. -/
theorem C2_start_recording_single_flight (r : AudioRecorder)
    (h : r.recording = true) (evs : List App.HotEvent) :
    r.start_recording = r ∧
    (App.run evs App.init).recorder.openDevices ≤ 1 := by
  refine ⟨by simp [AudioRecorder.start_recording, h], ?_⟩
  obtain ⟨-, h2⟩ := App.inv_run evs App.init App.inv_init
  rw [h2]; split <;> simp

/-- C2 witness: instantiated at an active recorder and a concrete
press/release interleaving. -/
theorem C2_start_recording_single_flight_witness :
    ({ recording := true, audio_queue := [[5]], openDevices := 1 } :
        AudioRecorder).start_recording =
      { recording := true, audio_queue := [[5]], openDevices := 1 } ∧
    (App.run [.press, .press, .release, .release, .press] App.init).recorder.openDevices ≤ 1 :=
  C2_start_recording_single_flight
    { recording := true, audio_queue := [[5]], openDevices := 1 } rfl
    [.press, .press, .release, .release, .press]

/-- C3: with required modifiers {control, option} and forbidden modifier
{command}, one flags-changed notification fires `on_press` exactly when the
combo condition goes false→true, fires `on_release` exactly when it goes
true→false, and fires nothing otherwise; concretely, flags=control|option
from the unpressed state fires a press, flags=control|option|command fires
nothing, and flags=control alone fires nothing. -/
theorem C3_combo_edges (l : HotkeyListenerCGEvent.Listener) (flags : Nat) :
    ((HotkeyListenerCGEvent._event_tap_callback l true flags).2 =
        .pressFired ↔
      HotkeyListenerCGEvent.comboNow flags ∧ l.is_pressed = false) ∧
    ((HotkeyListenerCGEvent._event_tap_callback l true flags).2 =
        .releaseFired ↔
      ¬ HotkeyListenerCGEvent.comboNow flags ∧ l.is_pressed = true) ∧
    ((HotkeyListenerCGEvent._event_tap_callback l true flags).2 =
        .nothingFired ↔
      ((HotkeyListenerCGEvent.comboNow flags ∧ l.is_pressed = true) ∨
       (¬ HotkeyListenerCGEvent.comboNow flags ∧ l.is_pressed = false))) ∧
    (HotkeyListenerCGEvent._event_tap_callback ⟨false⟩ true
        (2 ^ 18 ||| 2 ^ 19)).2 = .pressFired ∧
    (HotkeyListenerCGEvent._event_tap_callback ⟨false⟩ true
        (2 ^ 18 ||| 2 ^ 19 ||| 2 ^ 20)).2 = .nothingFired ∧
    (HotkeyListenerCGEvent._event_tap_callback ⟨false⟩ true (2 ^ 18)).2 =
      .nothingFired := by
  have hcm := check_modifiers_eq_comboNow flags
  refine ⟨?_, ?_, ?_, by decide, by decide, by decide⟩ <;>
    (by_cases hcb : HotkeyListenerCGEvent.comboNow flags <;>
      rcases hp : l.is_pressed <;>
      simp [HotkeyListenerCGEvent._event_tap_callback, hcm, hcb, hp])

/-- C4: `stop_recording` on a session that captured zero frames returns an
empty sample buffer, and `KuiskausApp.on_hotkey_release` spawns the
transcribe-and-insert thread only with a non-empty buffer — an empty buffer
never reaches `transcribe`. -/
theorem C4_empty_buffer_never_transcribed (r : AudioRecorder)
    (hq : r.audio_queue = []) (a : App.State) (au : List ℚ) :
    r.stop_recording.1 = [] ∧
    ((App.on_hotkey_release a).2 = some au → au ≠ []) := by
  constructor
  · unfold AudioRecorder.stop_recording
    split <;> simp [hq]
  · intro h hnil
    subst hnil
    by_cases hrec : a.is_recording
    · simp only [App.on_hotkey_release, hrec, if_true] at h
      split at h
      · rename_i hlen
        rw [Option.some.injEq] at h
        rw [h] at hlen
        simp at hlen
      · exact absurd h (by simp)
    · simp [App.on_hotkey_release, hrec] at h

/-- C4 witness: instantiated at a recorder with an empty queue and a
concrete app state. -/
theorem C4_empty_buffer_never_transcribed_witness :
    ({ recording := true, audio_queue := [], openDevices := 1 } :
        AudioRecorder).stop_recording.1 = [] ∧
    ((App.on_hotkey_release App.init).2 = some [1] → [(1 : ℚ)] ≠ []) :=
  C4_empty_buffer_never_transcribed
    { recording := true, audio_queue := [], openDevices := 1 } rfl App.init [1]

/-- C5: every non-empty audio input shorter than 100 ms (1600 samples at
16 kHz) is padded with trailing zeros up to the 100 ms minimum before the
engine is invoked, the original samples forming a prefix of the padded
buffer, and audio of at least 100 ms reaches the engine unmodified. -/
theorem C5_short_audio_padded (audio : List ℚ) (lat : ℚ) (h : audio ≠ []) :
    ∃ m, WhisperTranscriber.transcribe audio lat = some m ∧
      (audio.length < WhisperTranscriber.min_length →
        m.engine_input =
          audio ++
            List.replicate (WhisperTranscriber.min_length - audio.length) 0 ∧
        m.engine_input.length = WhisperTranscriber.min_length) ∧
      (WhisperTranscriber.min_length ≤ audio.length →
        m.engine_input = audio) := by
  have hne : audio.length ≠ 0 := by simpa using h
  have htr : WhisperTranscriber.transcribe audio lat =
      some { engine_input := WhisperTranscriber.padAudio audio,
             transcribe_time := lat,
             audio_duration :=
               ((WhisperTranscriber.padAudio audio).length : ℚ) / 16000,
             rtf :=
               lat / (((WhisperTranscriber.padAudio audio).length : ℚ) / 16000) } := by
    simp [WhisperTranscriber.transcribe, hne]
  refine ⟨_, htr, ?_, ?_⟩
  · intro hlt
    constructor
    · simp [WhisperTranscriber.padAudio, hlt]
    · simp [WhisperTranscriber.padAudio, hlt, Nat.add_sub_cancel' hlt.le]
  · intro hge
    simp [WhisperTranscriber.padAudio, Nat.not_lt.mpr hge]

/-- C5 witness: instantiated at a one-sample input. -/
theorem C5_short_audio_padded_witness :
    ∃ m, WhisperTranscriber.transcribe [(1 : ℚ)] 1 = some m ∧
      ([(1 : ℚ)].length < WhisperTranscriber.min_length →
        m.engine_input =
          [(1 : ℚ)] ++
            List.replicate (WhisperTranscriber.min_length - [(1 : ℚ)].length) 0 ∧
        m.engine_input.length = WhisperTranscriber.min_length) ∧
      (WhisperTranscriber.min_length ≤ [(1 : ℚ)].length →
        m.engine_input = [(1 : ℚ)]) :=
  C5_short_audio_padded [1] 1 (by simp)

/-- C6 counterexample: a model swap does not install the new handle "only
once its load has completed" — the handle installed by `_reload_model` has
its background load still incomplete at install time, because
`WhisperTranscriber.__init__` starts `_load_model` on a background thread
and returns without joining it. -/
theorem C6_swap_install_cex :
    ¬ ((MenuBar._reload_model
        { model_name := "turbo", loaded := true, model := some "turboEngine" }
        "base").1.loaded = true) := by
  simp [MenuBar._reload_model, WhisperTranscriber.mkHandle]

/-- C6 (amended): a model swap constructs a new handle and installs it as
the current handle immediately upon construction — with its load still
running in the background, not yet complete at install time — and releases
the old handle only after the install, performing no action on the old
handle before it, in the program order construct, install, release; an
in-flight transcription already holding the old handle's lock is untouched
by the swap and completes uninterrupted using the model instance it
acquired, even though the released handle no longer references that
instance. -/
theorem C6_swap_amended (s : MenuBar.TranscriberSystem) (name : String)
    (audio : List ℚ)
    (hc : WhisperTranscriber.enterTranscribe s.current audio = some s.inflight) :
    (MenuBar.swapWithInflight s name).1.current = WhisperTranscriber.mkHandle name ∧
    (MenuBar.swapWithInflight s name).1.current.loaded = false ∧
    (MenuBar.swapWithInflight s name).2 =
      [MenuBar.SwapEvent.constructNew, MenuBar.SwapEvent.installNew,
       MenuBar.SwapEvent.releaseOld] ∧
    (MenuBar._reload_model s.current name).2.1 =
      WhisperTranscriber.cleanup s.current ∧
    (WhisperTranscriber.cleanup s.current).model = none ∧
    (MenuBar.swapWithInflight s name).1.inflight = s.inflight ∧
    s.current.model = some s.inflight.completesWith := by
  cases hm : s.current.model with
  | none =>
      rw [WhisperTranscriber.enterTranscribe, hm] at hc
      exact absurd hc (by simp)
  | some m =>
      have hinf : s.inflight =
          { acquired := m, audio := audio } := by
        rw [WhisperTranscriber.enterTranscribe, hm] at hc
        simpa using hc.symm
      refine ⟨rfl, rfl, rfl, rfl, by simp [WhisperTranscriber.cleanup], rfl, ?_⟩
      simp [hm, hinf, WhisperTranscriber.InFlightTranscription.completesWith]

/-- C6 witness: instantiated at a loaded turbo handle with a one-sample
transcription in flight, swapped to the base model. -/
theorem C6_swap_amended_witness :
    (MenuBar.swapWithInflight
        { current := { model_name := "turbo", loaded := true, model := some "turboEngine" },
          inflight := { acquired := "turboEngine", audio := [1] } }
        "base").1.current = WhisperTranscriber.mkHandle "base" ∧
    (MenuBar.swapWithInflight
        { current := { model_name := "turbo", loaded := true, model := some "turboEngine" },
          inflight := { acquired := "turboEngine", audio := [1] } }
        "base").1.current.loaded = false ∧
    (MenuBar.swapWithInflight
        { current := { model_name := "turbo", loaded := true, model := some "turboEngine" },
          inflight := { acquired := "turboEngine", audio := [1] } }
        "base").2 =
      [MenuBar.SwapEvent.constructNew, MenuBar.SwapEvent.installNew,
       MenuBar.SwapEvent.releaseOld] ∧
    (MenuBar._reload_model
        { model_name := "turbo", loaded := true, model := some "turboEngine" }
        "base").2.1 =
      WhisperTranscriber.cleanup
        { model_name := "turbo", loaded := true, model := some "turboEngine" } ∧
    (WhisperTranscriber.cleanup
        { model_name := "turbo", loaded := true, model := some "turboEngine" }).model = none ∧
    (MenuBar.swapWithInflight
        { current := { model_name := "turbo", loaded := true, model := some "turboEngine" },
          inflight := { acquired := "turboEngine", audio := [1] } }
        "base").1.inflight =
      { acquired := "turboEngine", audio := [1] } ∧
    ({ model_name := "turbo", loaded := true, model := some "turboEngine" } :
        WhisperTranscriber.Handle).model =
      some ({ acquired := "turboEngine", audio := [1] } :
        WhisperTranscriber.InFlightTranscription).completesWith :=
  C6_swap_amended
    { current := { model_name := "turbo", loaded := true, model := some "turboEngine" },
      inflight := { acquired := "turboEngine", audio := [1] } }
    "base" [1] rfl

/-- C7: with the default paste-allowed setting, `insert_text` selects the
Paste strategy exactly when the text is longer than the 10-unit threshold
and per-character typing otherwise; any 19-character text selects Paste;
empty text is a no-op using neither strategy. -/
theorem C7_strategy_selection (text : String) (h19 : text.length = 19) :
    TextInserter.insert_text "" true = .noop ∧
    (∀ t : String, t ≠ "" →
      TextInserter.insert_text t true =
        (if t.length > 10 then .paste else .direct)) ∧
    TextInserter.insert_text text true = .paste := by
  have hne : text ≠ "" := by
    intro hnil; rw [hnil] at h19; simp at h19
  refine ⟨by simp [TextInserter.insert_text], ?_, ?_⟩
  · intro t ht
    simp [TextInserter.insert_text, ht]
  · simp [TextInserter.insert_text, hne, h19]

/-- C7 witness: instantiated at a 19-character transcription result. -/
theorem C7_strategy_selection_witness :
    TextInserter.insert_text "" true = .noop ∧
    (∀ t : String, t ≠ "" →
      TextInserter.insert_text t true =
        (if t.length > 10 then .paste else .direct)) ∧
    TextInserter.insert_text "hello there friends" true = .paste :=
  C7_strategy_selection "hello there friends" rfl

/-- C8: for every non-empty audio input, the result's audio duration equals
the number of samples handed to the engine divided by 16000 and the
realtime factor equals the elapsed inference time divided by that duration;
for a 2.0-second (32000-sample) recording, rtf = engine latency / 2. -/
theorem C8_metrics (audio : List ℚ) (lat : ℚ) (h : audio ≠ []) :
    ∃ m, WhisperTranscriber.transcribe audio lat = some m ∧
      m.audio_duration = (m.engine_input.length : ℚ) / 16000 ∧
      m.rtf = m.transcribe_time / m.audio_duration ∧
      m.transcribe_time = lat ∧
      (audio.length = 32000 → m.audio_duration = 2 ∧ m.rtf = lat / 2) := by
  have hne : audio.length ≠ 0 := by simpa using h
  have htr : WhisperTranscriber.transcribe audio lat =
      some { engine_input := WhisperTranscriber.padAudio audio,
             transcribe_time := lat,
             audio_duration :=
               ((WhisperTranscriber.padAudio audio).length : ℚ) / 16000,
             rtf :=
               lat / (((WhisperTranscriber.padAudio audio).length : ℚ) / 16000) } := by
    simp [WhisperTranscriber.transcribe, hne]
  refine ⟨_, htr, rfl, rfl, rfl, ?_⟩
  intro h32
  have hpad : WhisperTranscriber.padAudio audio = audio := by
    simp [WhisperTranscriber.padAudio, h32, WhisperTranscriber.min_length]
  constructor
  · show ((WhisperTranscriber.padAudio audio).length : ℚ) / 16000 = 2
    rw [hpad, h32]; norm_num
  · show lat / (((WhisperTranscriber.padAudio audio).length : ℚ) / 16000) = lat / 2
    rw [hpad, h32]; norm_num

/-- C8 witness: instantiated at a 2.0-second recording. -/
theorem C8_metrics_witness :
    ∃ m, WhisperTranscriber.transcribe (List.replicate 32000 (1 : ℚ)) 3 = some m ∧
      m.audio_duration = (m.engine_input.length : ℚ) / 16000 ∧
      m.rtf = m.transcribe_time / m.audio_duration ∧
      m.transcribe_time = 3 ∧
      ((List.replicate 32000 (1 : ℚ)).length = 32000 →
        m.audio_duration = 2 ∧ m.rtf = 3 / 2) :=
  C8_metrics (List.replicate 32000 1) 3 (by rw [Ne, List.replicate_eq_nil_iff]; decide)

/-- C9: when the clipboard holds no string content before
`insert_text_paste(text)` (snapshot `none`), the restoration step in the
`finally` block is skipped, so after the call — on either exit path — the
clipboard contains the injected text. -/
theorem C9_none_snapshot_keeps_injected (text : String) (pasteRaises : Bool) :
    (TextInserter.insert_text_paste none text pasteRaises).1 = some text := by
  simp [TextInserter.insert_text_paste]

/-- C10: in the menu-bar orchestrator, a hotkey release while disabled and
recording is ignored entirely — the state (recording flag, recorder) is
unchanged and `stop_recording` is not called, so the capture session
persists; after re-enabling, a further release clears the flag, calls
`stop_recording`, and the recorder is left not recording. -/
theorem C10_disabled_release_ignored (m : MenuBar.App)
    (hd : m.enabled = false) (hr : m.is_recording = true) :
    MenuBar.on_hotkey_release m = (m, none, false) ∧
    (MenuBar.toggle_enabled m).enabled = true ∧
    (MenuBar.on_hotkey_release (MenuBar.toggle_enabled m)).1.is_recording = false ∧
    (MenuBar.on_hotkey_release (MenuBar.toggle_enabled m)).2.2 = true ∧
    (MenuBar.on_hotkey_release
        (MenuBar.toggle_enabled m)).1.recorder.recording = false := by
  refine ⟨by simp [MenuBar.on_hotkey_release, hd], by simp [MenuBar.toggle_enabled, hd],
    ?_, ?_, ?_⟩ <;>
    (simp [MenuBar.on_hotkey_release, MenuBar.toggle_enabled, hd, hr]
     all_goals unfold AudioRecorder.stop_recording
     all_goals split <;> simp_all)

/-- C10 witness: instantiated at a disabled app mid-recording. -/
theorem C10_disabled_release_ignored_witness :
    MenuBar.on_hotkey_release
        { enabled := false, is_recording := true,
          recorder := { recording := true, audio_queue := [[7]], openDevices := 1 } } =
      ({ enabled := false, is_recording := true,
         recorder := { recording := true, audio_queue := [[7]], openDevices := 1 } },
        none, false) ∧
    (MenuBar.toggle_enabled
        { enabled := false, is_recording := true,
          recorder := { recording := true, audio_queue := [[7]], openDevices := 1 } }).enabled = true ∧
    (MenuBar.on_hotkey_release (MenuBar.toggle_enabled
        { enabled := false, is_recording := true,
          recorder := { recording := true, audio_queue := [[7]], openDevices := 1 } })).1.is_recording = false ∧
    (MenuBar.on_hotkey_release (MenuBar.toggle_enabled
        { enabled := false, is_recording := true,
          recorder := { recording := true, audio_queue := [[7]], openDevices := 1 } })).2.2 = true ∧
    (MenuBar.on_hotkey_release (MenuBar.toggle_enabled
        { enabled := false, is_recording := true,
          recorder := { recording := true, audio_queue := [[7]], openDevices := 1 } })).1.recorder.recording = false :=
  C10_disabled_release_ignored
    { enabled := false, is_recording := true,
      recorder := { recording := true, audio_queue := [[7]], openDevices := 1 } }
    rfl rfl

end Kuiskaus
